import Mathlib

/-!
# Verification of the Robin investigation orchestration core

Shallow embedding of the Robin OSINT agent (Python) in Lean 4:

* `src/agent/tools.py` — the `darkweb_search`, `darkweb_scrape` and
  `delegate_analysis` tools (validation, formatting, display caps);
* `src/agent/client.py` — `RobinAgent` session state, final-result
  deduplication and `reset_session`;
* `src/backend/app/services/agent_service.py` — `AgentService`, the
  callback-to-SSE-event correlator (tool lifecycle, completion, errors);
* `src/backend/app/models/investigation.py` — the SSE event payloads.

The modules `core/search.py`, `core/scrape.py` and `agent/subagents.py`
are not part of the available sources; where a definition depends on them
it is modelled from the specification and marked as such in its doc
comment.  Python dictionaries that preserve insertion order are embedded
as association lists; wall-clock timestamps are embedded as naturals
(milliseconds) passed explicitly to each callback; quote characters that
appear inside some Python message strings are elided, which affects no
stated property.
-/

namespace Robin

/-! ## Source fan-out search (`darkweb_search`, tools.py lines 25-80) -/

/-- One search hit: title plus `.onion` link (`SourceResult` in the spec). -/
structure SearchResult where
  title : String
  link : String
deriving DecidableEq, Repr

/-- Modelled from the spec: `core/search.py` (`get_search_results`) is not
under the available sources.  Spec section 4.1: the same query is sent to a
fixed roster of sources; after all sources complete, results are
deduplicated by normalized link, preserving first-seen order across the
roster's fixed source order.  We take the per-source raw result lists (in
roster order) as input and keep the first occurrence of each link; links
are assumed already normalized. -/
def dedupByLink : List SearchResult → List String → List SearchResult
  | [], _ => []
  | r :: rs, seen =>
    if r.link ∈ seen then dedupByLink rs seen
    else r :: dedupByLink rs (r.link :: seen)

/-- Modelled from the spec: deduplicated concatenation of the per-source
result lists in roster order (`core/search.py` is missing from the
available sources). -/
def get_search_results (sources : List (List SearchResult)) : List SearchResult :=
  dedupByLink sources.flatten []

/-- Title truncation in the result formatting loop (tools.py line 59). -/
def formatTitle (t : String) : String :=
  if t.length > 80 then t.take 80 ++ "..." else t

/-- One numbered entry of the formatted search output (tools.py line 61). -/
def formatSearchEntry (i : Nat) (r : SearchResult) : String :=
  toString i ++ ". **" ++ formatTitle r.title ++ "**\n   URL: " ++ r.link

/-- The `formatted` list built by `darkweb_search` (1-based enumeration). -/
def formattedResults (results : List SearchResult) : List String :=
  (List.enum results).map (fun p => formatSearchEntry (p.1 + 1) p.2)

/-- `display_results = formatted[:50]` (tools.py line 64). -/
def displayResults (results : List SearchResult) : List String :=
  (formattedResults results).take 50

def searchNoResultsText : String :=
  "No results found. Try refining your search query or check Tor connectivity."

def searchHeaderText (n : Nat) : String :=
  "Found **" ++ toString n ++ "** unique results from dark web search engines.\n\n"

def searchMoreText (n : Nat) : String :=
  "\n\n... and " ++ toString (n - 50) ++ " more results."

def searchNextStepText : String :=
  "\n\n**Next step**: Select the most relevant results and use `darkweb_scrape` with a list of targets containing title and link for each."

/-- The `result_text` assembled by `darkweb_search` on a non-empty result
list (tools.py lines 63-73): header with the uncapped total, the first 50
formatted entries, a "more results" marker only when more than 50, and the
next-step hint. -/
def searchResultText (results : List SearchResult) : String :=
  searchHeaderText results.length
    ++ String.intercalate "\n\n" (displayResults results)
    ++ (if results.length > 50 then searchMoreText results.length else "")
    ++ searchNextStepText

/-- `darkweb_search` success path (after the executor call): the text of
the tool response as a function of the deduplicated results. -/
def darkweb_search_text (results : List SearchResult) : String :=
  if results = [] then searchNoResultsText else searchResultText results

/-! ## Target fan-out retrieval (`darkweb_scrape`, tools.py lines 91-178) -/

/-- A Python value passed in the `targets` list: a dict (with optional
`title` and `link` keys), a bare string, or anything else. -/
inductive PyTarget where
  | dict (title : Option String) (link : Option String)
  | str (s : String)
  | other
deriving DecidableEq, Repr

/-- A normalized `{title, link}` entry of `urls_data`. -/
structure UrlData where
  title : String
  link : String
deriving DecidableEq, Repr

/-- The validation loop of `darkweb_scrape` (tools.py lines 112-124): a
dict with a `link` key is kept (title defaulting to "Unknown"), a bare
string becomes a link with title "Unknown", and anything else — including
a dict without a `link` key — is skipped. -/
def validTargets : List PyTarget → List UrlData
  | [] => []
  | PyTarget.dict t (some l) :: rest => ⟨t.getD "Unknown", l⟩ :: validTargets rest
  | PyTarget.dict _ none :: rest => validTargets rest
  | PyTarget.str s :: rest => ⟨"Unknown", s⟩ :: validTargets rest
  | PyTarget.other :: rest => validTargets rest

/-- Modelled from the spec: `core/scrape.py` (`scrape_multiple`) is not
under the available sources.  Spec section 4.2: the output mapping is keyed
by link and every requested target always appears in it; a failed or empty
retrieval yields a null/empty text.  The per-link transport outcome is
abstracted as `fetch`. -/
def scrape_multiple (urls : List UrlData) (fetch : String → Option String) :
    List (String × Option String) :=
  urls.map (fun u => (u.link, fetch u.link))

def minimalContentText : String := "*[Minimal or no content extracted]*"

/-- One `content_parts` entry (tools.py lines 160-167): content longer than
50 characters is meaningful (truncated at 2000 with a marker), anything
else gets the minimal-content placeholder; nothing is omitted. -/
def formatScrapeEntry (url : String) (content : Option String) : String :=
  match content with
  | some c =>
    if c.length > 50 then
      "## Source: " ++ url ++ "\n\n"
        ++ (if c.length > 2000 then c.take 2000 ++ "..." else c)
        ++ "\n\n---"
    else
      "## Source: " ++ url ++ "\n\n" ++ minimalContentText ++ "\n\n---"
  | none => "## Source: " ++ url ++ "\n\n" ++ minimalContentText ++ "\n\n---"

/-- The `content_parts` list of `darkweb_scrape`. -/
def contentParts (results : List (String × Option String)) : List String :=
  results.map (fun p => formatScrapeEntry p.1 p.2)

/-- `success_count`: results whose content exists and exceeds 50
characters. -/
def successCount (results : List (String × Option String)) : Nat :=
  results.countP (fun p =>
    match p.2 with
    | some c => c.length > 50
    | none => false)

/-- The success-path `result_text` of `darkweb_scrape` (lines 169-171). -/
def scrapeResultText (urls : List UrlData) (results : List (String × Option String)) : String :=
  "Successfully scraped **" ++ toString (successCount results) ++ "/"
    ++ toString urls.length ++ "** pages.\n\n"
    ++ String.intercalate "\n" (contentParts results)
    ++ "\n\n**Next step**: Analyze this content for intelligence artifacts and generate your findings report."

def scrapeNoTargetsText : String :=
  "No targets provided. Please specify URLs to scrape as a list of objects with title and link keys."

def scrapeInvalidFormatText : String :=
  "Invalid target format. Provide a list of objects with title and link keys, or a list of URL strings."

def scrapeEmptyResultsText : String :=
  "Failed to scrape any content. The .onion sites may be offline or blocking requests."

/-- `darkweb_scrape` (tools.py lines 100-178): empty-list check, format
validation, retrieval dispatch over the surviving `urls_data`, and result
formatting.  The response text as a function of the raw targets and the
per-link transport outcome. -/
def darkweb_scrape (targets : List PyTarget) (fetch : String → Option String) : String :=
  if targets = [] then scrapeNoTargetsText
  else
    let urls_data := validTargets targets
    if urls_data = [] then scrapeInvalidFormatText
    else
      let results := scrape_multiple urls_data fetch
      if results = [] then scrapeEmptyResultsText
      else scrapeResultText urls_data results

/-! ## Worker delegation (`delegate_analysis`, tools.py lines 237-306) -/

/-- Result of one sub-agent run (`agent/subagents.py` dataclass, mirrored
by `SubAgentResultModel` in `investigation.py`). -/
structure SubAgentResult where
  agent_type : String
  analysis : String
  success : Bool
  error : Option String
deriving DecidableEq, Repr

/-- Modelled from the spec: `agent/subagents.py` (`get_available_subagents`)
is not under the available sources.  Spec section 4.3 and the tool
description fix a registry of exactly four worker kinds with their
descriptions; the function returns a (defensive copy of the) mapping. -/
def get_available_subagents : List (String × String) :=
  [("ThreatActorProfiler", "Profiles threat actors, APT groups, cybercriminals"),
   ("IOCExtractor", "Extracts IPs, domains, hashes, emails, crypto addresses"),
   ("MalwareAnalyst", "Analyzes malware, ransomware, exploits"),
   ("MarketplaceInvestigator", "Investigates dark web markets and vendors")]

/-- `list(available.keys())`. -/
def availableKeys : List String := get_available_subagents.map Prod.fst

/-- Python display of a list of names (quote characters elided). -/
def pyList (xs : List String) : String :=
  "[" ++ String.intercalate ", " xs ++ "]"

/-- The empty-`agent_types` message (tools.py lines 250-258). -/
def noAgentsText : String :=
  "No agents specified. Available sub-agents:\n\n"
    ++ String.intercalate "\n"
      (get_available_subagents.map (fun p => "- **" ++ p.1 ++ "**: " ++ p.2))

/-- The invalid-kinds rejection message (tools.py line 267): the full
invalid list followed by the full valid key set. -/
def invalidAgentsText (invalid : List String) : String :=
  "Invalid agent types: " ++ pyList invalid ++ ". Valid types: " ++ pyList availableKeys

def noContentText : String :=
  "No content provided for analysis. Please include the scraped content to analyze."

/-- One per-worker section of the output (tools.py lines 293-297). -/
def formatSubagentResult (r : SubAgentResult) : String :=
  if r.success then "### " ++ r.agent_type ++ "\n\n" ++ r.analysis ++ "\n"
  else "### " ++ r.agent_type ++ "\n\n*Analysis failed: " ++ r.error.getD "None" ++ "*\n"

/-- The success-path output of `delegate_analysis` (lines 291-306). -/
def delegateResultText (agent_types : List String) (results : List SubAgentResult) : String :=
  String.intercalate "\n"
    (("## Sub-Agent Analysis Results\n\nDelegated to: "
        ++ String.intercalate ", " agent_types ++ "\n")
      :: (results.map formatSubagentResult
          ++ ["---\n\n**Next step**: Synthesize these findings into your final report."]))

/-- `delegate_analysis` (tools.py lines 246-306): empty-kind check, kind
validation against the registry, content check, then parallel dispatch.
The parallel sub-agent runner (`run_subagents_parallel`, not under the
available sources) is abstracted as `runner`; a validation failure returns
a constant message, so it cannot depend on `runner`. -/
def delegate_analysis (agent_types : List String) (content context : String)
    (runner : List String → String → String → List SubAgentResult) : String :=
  if agent_types = [] then noAgentsText
  else
    let invalid := agent_types.filter (fun a => !(availableKeys.contains a))
    if invalid ≠ [] then invalidAgentsText invalid
    else if content = "" then noContentText
    else delegateResultText agent_types (runner agent_types content context)

/-! ## Session orchestrator (`RobinAgent`, client.py) -/

/-- `b` is a contiguous prefix of `a` (character lists). -/
def prefOf : List Char → List Char → Bool
  | [], _ => true
  | _ :: _, [] => false
  | a :: as, b :: bs => a == b && prefOf as bs

/-- `needle` occurs contiguously inside `hay` (character lists): the
embedding of the Python substring test `needle in hay`. -/
def hasSubList (needle : List Char) : List Char → Bool
  | [] => needle.isEmpty
  | b :: bs => prefOf needle (b :: bs) || hasSubList needle bs

/-- Python `needle in hay` on strings. -/
def strContainsSub (hay needle : String) : Bool :=
  hasSubList needle.data hay.data

/-- The final-result deduplication guard of `RobinAgent.investigate`
(client.py line 157): the result text is forwarded only when non-empty and
not already contained in the streamed response. -/
def finalResultEmitted (full_response result_text : String) : Bool :=
  (result_text != "") && !(strContainsSub full_response result_text)

/-- The accumulated response after the terminal `ResultMessage` is handled
(client.py lines 155-162). -/
def appendFinalResult (full_response result_text : String) : String :=
  if finalResultEmitted full_response result_text then full_response ++ result_text
  else full_response

/-- The `RobinAgent` session state touched by `reset_session` and
`_build_options`: the continuation token and the tool-use log. -/
structure RobinAgentSt where
  session_id : Option String
  tools_used : List (String × String)
deriving DecidableEq, Repr

/-- `RobinAgent.reset_session` (client.py lines 199-202). -/
def reset_session (_a : RobinAgentSt) : RobinAgentSt :=
  { session_id := none, tools_used := [] }

/-- The option set built for each `query` call (`ClaudeCodeOptions`). -/
structure AgentOptions where
  system_prompt : String
  model : String
  max_turns : Nat
  allowed_tools : List String
  resume : Option String
deriving DecidableEq, Repr

def ROBIN_ALLOWED_TOOLS : List String :=
  ["mcp__robin__darkweb_search", "mcp__robin__darkweb_scrape",
   "mcp__robin__save_report", "mcp__robin__delegate_analysis"]

/-- `RobinAgent._build_options` (client.py lines 76-98): the resume token
is set only when a session id is held (Python truthiness: an empty string
counts as absent). -/
def build_options (a : RobinAgentSt) (system_prompt model_name : String)
    (max_turns : Nat) : AgentOptions :=
  { system_prompt := system_prompt
    model := model_name
    max_turns := max_turns
    allowed_tools := ROBIN_ALLOWED_TOOLS
    resume :=
      match a.session_id with
      | some s => if s = "" then none else some s
      | none => none }

/-- The start of `RobinAgent.investigate` (client.py lines 121-124): the
tool log and accumulated response are cleared, then options are built from
the current state. -/
def investigate_start (a : RobinAgentSt) (system_prompt model_name : String)
    (max_turns : Nat) : RobinAgentSt × String × AgentOptions :=
  ({ a with tools_used := [] }, "", build_options a system_prompt model_name max_turns)

/-! ## Event correlator (`AgentService`, agent_service.py; payloads from
`investigation.py`) -/

/-- `ErrorEventData` (investigation.py lines 144-147): the code defaults to
"INVESTIGATION_ERROR". -/
structure ErrorEventData where
  message : String
  code : String := "INVESTIGATION_ERROR"
deriving DecidableEq, Repr

/-- An SSE event as emitted by the stream manager, with the payloads of
investigation.py lines 96-154.  Tool ids are the stable identifiers the
event sink generates at `ToolStart` time (modelled from the spec as a
per-session counter, since the stream manager module is not under the
available sources). -/
inductive SSEEvent where
  | text (content : String)
  | toolStart (id : Nat) (tool : String) (input : String)
  | toolEnd (id : Nat) (tool : String) (duration_ms : Int)
  | subagentStart (agent_type : String)
  | complete (text : String) (session_id : Option String)
  | error (data : ErrorEventData)
deriving DecidableEq, Repr

/-- A tool-use input payload: opaque raw content plus the `agent_types`
entry that `_on_tool_use` reads for delegation announcements
(`input_data.get("agent_types", [])`). -/
structure ToolInput where
  raw : String
  agent_types : List String
deriving DecidableEq, Repr

/-- The `AgentService` correlator state (agent_service.py lines 37-41)
together with the ordered event stream already handed to the sink and the
sink's id counter. -/
structure AgentServiceSt where
  current_tool_id : Option Nat
  tool_start_time : Nat
  tools_used : List (String × ToolInput)
  full_response : String
  events : List SSEEvent
  next_id : Nat
deriving DecidableEq, Repr

/-- Fresh correlator state (agent_service.py lines 37-41). -/
def AgentServiceSt.init : AgentServiceSt :=
  { current_tool_id := none, tool_start_time := 0, tools_used := []
    full_response := "", events := [], next_id := 0 }

/-- `self._tools_used[-1]["name"]` with the "unknown" default of
`_on_complete`. -/
def lastToolName (l : List (String × ToolInput)) : String :=
  match l.getLast? with
  | some p => p.1
  | none => "unknown"

def DELEGATE_TOOL : String := "mcp__robin__delegate_analysis"

/-- `AgentService._on_text` (lines 52-56). -/
def emit_text_cb (s : AgentServiceSt) (t : String) : AgentServiceSt :=
  { s with full_response := s.full_response ++ t
           events := s.events ++ [SSEEvent.text t] }

/-- `AgentService._on_tool_use` (lines 58-83): while a previous tool is
still open, a `ToolEnd` for it (duration = now minus its recorded start)
is scheduled before the `ToolStart` of the new tool; the new tool gets a
fresh id from the sink, and a delegation tool additionally announces one
`subagentStart` per requested worker kind.  `now` is the callback's
wall-clock reading in milliseconds; scheduled emissions run in FIFO order
before the next callback. -/
def on_tool_use (s : AgentServiceSt) (name : String) (input : ToolInput)
    (now : Nat) : AgentServiceSt :=
  let endEvents : List SSEEvent :=
    match s.current_tool_id with
    | some tid => [SSEEvent.toolEnd tid (lastToolName s.tools_used)
        ((now : Int) - (s.tool_start_time : Int))]
    | none => []
  let subEvents : List SSEEvent :=
    if name = DELEGATE_TOOL then input.agent_types.map SSEEvent.subagentStart else []
  { current_tool_id := some s.next_id
    tool_start_time := now
    tools_used := s.tools_used ++ [(name, input)]
    full_response := s.full_response
    events := s.events ++ endEvents ++ [SSEEvent.toolStart s.next_id name input.raw] ++ subEvents
    next_id := s.next_id + 1 }

/-- `AgentService._on_complete` (lines 85-107): any still-open tool is
closed before the terminal `Complete` event. -/
def on_complete (s : AgentServiceSt) (result_text : String)
    (session_id : Option String) (now : Nat) : AgentServiceSt :=
  let endEvents : List SSEEvent :=
    match s.current_tool_id with
    | some tid => [SSEEvent.toolEnd tid (lastToolName s.tools_used)
        ((now : Int) - (s.tool_start_time : Int))]
    | none => []
  { s with events := s.events ++ endEvents ++ [SSEEvent.complete result_text session_id] }

/-- One callback signal delivered to `AgentService` by the orchestrator. -/
inductive Signal where
  | toolUse (name : String) (input : ToolInput) (now : Nat)
  | textSig (t : String)
  | completeSig (result_text : String) (session_id : Option String) (now : Nat)
deriving DecidableEq, Repr

/-- Sequential delivery of a list of callback signals. -/
def runSignals : AgentServiceSt → List Signal → AgentServiceSt
  | s, [] => s
  | s, Signal.toolUse n i t :: rest => runSignals (on_tool_use s n i t) rest
  | s, Signal.textSig t :: rest => runSignals (emit_text_cb s t) rest
  | s, Signal.completeSig r sid t :: rest => runSignals (on_complete s r sid t) rest

def isToolStart : SSEEvent → Bool
  | SSEEvent.toolStart .. => true
  | _ => false

def isToolEnd : SSEEvent → Bool
  | SSEEvent.toolEnd .. => true
  | _ => false

def isErrorEvent : SSEEvent → Bool
  | SSEEvent.error _ => true
  | _ => false

/-- `SSEStreamManager.emit_error` as used by `AgentService.investigate`:
one `Error` event with the failure message and the default code. -/
def emit_error (s : AgentServiceSt) (msg : String) : AgentServiceSt :=
  { s with events := s.events ++ [SSEEvent.error { message := msg }] }

/-- `AgentService.investigate` (agent_service.py lines 119-128): the driver
consumes the orchestrator's callback signals; if the orchestrator then
raises, the failure message is emitted as one `Error` event and the
exception is re-raised to the caller (no retry).  `stream` is the prefix
of signals delivered before the outcome. -/
def investigate (s : AgentServiceSt) (stream : List Signal)
    (failure : Option String) : AgentServiceSt × Except String Unit :=
  let s2 := runSignals s stream
  match failure with
  | none => (s2, Except.ok ())
  | some m => (emit_error s2 m, Except.error m)

/-! ## Concrete inputs used by the verification below -/

/-- A correlator state with one open tool (id 0, started at 2ms). -/
def svc1 : AgentServiceSt :=
  on_tool_use AgentServiceSt.init "mcp__robin__darkweb_search" ⟨"q", []⟩ 2

def c1Signals : List Signal :=
  [Signal.toolUse "mcp__robin__darkweb_search" ⟨"q1", []⟩ 1,
   Signal.toolUse "mcp__robin__darkweb_scrape" ⟨"q2", []⟩ 3,
   Signal.toolUse "mcp__robin__save_report" ⟨"q3", []⟩ 7,
   Signal.completeSig "done" none 10]

def c4A : SearchResult := ⟨"Title A", "A"⟩
def c4B : SearchResult := ⟨"Title B", "B"⟩
def c4B2 : SearchResult := ⟨"Title B seen again", "B"⟩
def c4C : SearchResult := ⟨"Title C", "C"⟩
def c4D : SearchResult := ⟨"Title D", "D"⟩

/-- Three sources returning overlapping links: {A,B}, {B,C}, {D}. -/
def c4Sources : List (List SearchResult) := [[c4A, c4B], [c4B2, c4C], [c4D]]

/-- 51 distinct search results, to exercise the display cap. -/
def c9Long : List SearchResult :=
  (List.range 51).map (fun i => ⟨"t", toString i⟩)

/-! ## Helper lemmas -/

theorem dedupByLink_not_seen :
    ∀ (l : List SearchResult) (seen : List String) (x : String),
    x ∈ (dedupByLink l seen).map SearchResult.link → x ∉ seen := by
  intro l
  induction l with
  | nil => intro seen x hx; simp [dedupByLink] at hx
  | cons r rs ih =>
    intro seen x hx
    by_cases h : r.link ∈ seen
    · rw [dedupByLink, if_pos h] at hx
      exact ih seen x hx
    · rw [dedupByLink, if_neg h] at hx
      simp only [List.map_cons, List.mem_cons] at hx
      rcases hx with rfl | hx
      · exact h
      · intro hxseen
        exact ih _ x hx (List.mem_cons_of_mem _ hxseen)

theorem dedupByLink_nodup :
    ∀ (l : List SearchResult) (seen : List String),
    ((dedupByLink l seen).map SearchResult.link).Nodup := by
  intro l
  induction l with
  | nil => intro seen; simp [dedupByLink]
  | cons r rs ih =>
    intro seen
    by_cases h : r.link ∈ seen
    · rw [dedupByLink, if_pos h]
      exact ih seen
    · rw [dedupByLink, if_neg h]
      simp only [List.map_cons, List.nodup_cons]
      refine ⟨fun hmem => ?_, ih _⟩
      exact dedupByLink_not_seen rs (r.link :: seen) r.link hmem (List.mem_cons_self _ _)

theorem dedupByLink_sublist :
    ∀ (l : List SearchResult) (seen : List String),
    List.Sublist (dedupByLink l seen) l := by
  intro l
  induction l with
  | nil => intro seen; simp [dedupByLink]
  | cons r rs ih =>
    intro seen
    by_cases h : r.link ∈ seen
    · rw [dedupByLink, if_pos h]
      exact List.Sublist.cons r (ih seen)
    · rw [dedupByLink, if_neg h]
      exact List.Sublist.cons₂ r (ih _)

theorem dedupByLink_covers :
    ∀ (l : List SearchResult) (seen : List String) (r : SearchResult),
    r ∈ l → r.link ∉ seen → ∃ q ∈ dedupByLink l seen, q.link = r.link := by
  intro l
  induction l with
  | nil => intro seen r hr; simp at hr
  | cons a rs ih =>
    intro seen r hr hseen
    rcases List.mem_cons.mp hr with rfl | hr2
    · rw [dedupByLink, if_neg hseen]
      exact ⟨r, List.mem_cons_self _ _, rfl⟩
    · by_cases h : a.link ∈ seen
      · rw [dedupByLink, if_pos h]
        exact ih seen r hr2 hseen
      · rw [dedupByLink, if_neg h]
        by_cases hl : r.link = a.link
        · exact ⟨a, List.mem_cons_self _ _, hl.symm⟩
        · obtain ⟨q, hq, hql⟩ := ih (a.link :: seen) r hr2 (by
            intro hmem
            rcases List.mem_cons.mp hmem with h1 | h2
            · exact hl h1
            · exact hseen h2)
          exact ⟨q, List.mem_cons_of_mem _ hq, hql⟩

theorem prefOf_iff :
    ∀ (a b : List Char), prefOf a b = true ↔ ∃ t, b = a ++ t := by
  intro a
  induction a with
  | nil => intro b; simp [prefOf]
  | cons x xs ih =>
    intro b
    cases b with
    | nil => simp [prefOf]
    | cons y ys =>
      rw [prefOf, Bool.and_eq_true, beq_iff_eq, ih ys]
      constructor
      · rintro ⟨rfl, t, rfl⟩
        exact ⟨t, rfl⟩
      · rintro ⟨t, ht⟩
        simp only [List.cons_append, List.cons.injEq] at ht
        exact ⟨ht.1.symm, t, ht.2⟩

theorem hasSubList_iff :
    ∀ (hay needle : List Char),
    hasSubList needle hay = true ↔ ∃ s t, hay = s ++ needle ++ t := by
  intro hay
  induction hay with
  | nil =>
    intro needle
    rw [hasSubList, List.isEmpty_iff]
    constructor
    · rintro rfl; exact ⟨[], [], rfl⟩
    · rintro ⟨s, t, hst⟩
      rcases List.append_eq_nil.mp hst.symm with ⟨h1, h2⟩
      exact (List.append_eq_nil.mp h1).2
  | cons b bs ih =>
    intro needle
    rw [hasSubList, Bool.or_eq_true, prefOf_iff, ih]
    constructor
    · rintro (⟨t, ht⟩ | ⟨s, t, hst⟩)
      · exact ⟨[], t, by simpa using ht⟩
      · exact ⟨b :: s, t, by simp [hst]⟩
    · rintro ⟨s, t, hst⟩
      cases s with
      | nil => exact Or.inl ⟨t, by simpa using hst⟩
      | cons c cs =>
        simp only [List.cons_append, List.cons.injEq, List.append_assoc] at hst
        exact Or.inr ⟨cs, t, by simp [hst.2]⟩

theorem countP_error_append_of (l1 l2 : List SSEEvent)
    (h : ∀ e ∈ l2, isErrorEvent e = false) :
    (l1 ++ l2).countP isErrorEvent = l1.countP isErrorEvent := by
  have h2 : l2.countP isErrorEvent = 0 := by
    apply List.countP_eq_zero.mpr
    intro a ha
    simp [h a ha]
  rw [List.countP_append, h2, Nat.add_zero]

theorem countP_error_subagentStarts (l : List String) :
    (l.map SSEEvent.subagentStart).countP isErrorEvent = 0 := by
  apply List.countP_eq_zero.mpr
  intro a ha
  obtain ⟨x, _, rfl⟩ := List.mem_map.mp ha
  simp [isErrorEvent]

theorem on_tool_use_countP_error (s : AgentServiceSt) (n : String) (i : ToolInput) (t : Nat) :
    ((on_tool_use s n i t).events).countP isErrorEvent = s.events.countP isErrorEvent := by
  rcases hc : s.current_tool_id with _ | tid <;>
  by_cases hn : n = DELEGATE_TOOL <;>
  simp [on_tool_use, hc, hn, List.countP_append, List.countP_cons, List.countP_nil,
        isErrorEvent, countP_error_subagentStarts]

theorem emit_text_cb_countP_error (s : AgentServiceSt) (t : String) :
    ((emit_text_cb s t).events).countP isErrorEvent = s.events.countP isErrorEvent := by
  simp [emit_text_cb, List.countP_append, List.countP_cons, List.countP_nil, isErrorEvent]

theorem on_complete_countP_error (s : AgentServiceSt) (r : String)
    (sid : Option String) (t : Nat) :
    ((on_complete s r sid t).events).countP isErrorEvent = s.events.countP isErrorEvent := by
  rcases hc : s.current_tool_id with _ | tid <;>
  simp [on_complete, hc, List.countP_append, List.countP_cons, List.countP_nil, isErrorEvent]

theorem runSignals_countP_error :
    ∀ (stream : List Signal) (s : AgentServiceSt),
    ((runSignals s stream).events).countP isErrorEvent = s.events.countP isErrorEvent := by
  intro stream
  induction stream with
  | nil => intro s; rfl
  | cons sig rest ih =>
    intro s
    cases sig with
    | toolUse n i t => rw [runSignals, ih, on_tool_use_countP_error]
    | textSig t => rw [runSignals, ih, emit_text_cb_countP_error]
    | completeSig r sid t => rw [runSignals, ih, on_complete_countP_error]

/-! ## The claims -/

/-- Claim C6: in `RobinAgent.investigate`, final result text carried by the
terminal result message is appended to the accumulated response (and
forwarded to the text callback / stream) if and only if it is not already
contained as a substring of the accumulated streamed text; when it is a
substring, the accumulated text is left unchanged.  The Boolean substring
test is characterized against contiguous-occurrence decomposition. -/
theorem C6_final_result_dedup :
    ∀ (full_response result_text : String),
      result_text ≠ "" →
      (strContainsSub full_response result_text = false →
          appendFinalResult full_response result_text = full_response ++ result_text
          ∧ finalResultEmitted full_response result_text = true)
      ∧ (strContainsSub full_response result_text = true →
          appendFinalResult full_response result_text = full_response
          ∧ finalResultEmitted full_response result_text = false)
      ∧ (strContainsSub full_response result_text = true ↔
          ∃ s t, full_response.data = s ++ result_text.data ++ t) := by
  intro full result h
  have hb : (result != "") = true := bne_iff_ne.mpr h
  refine ⟨?_, ?_, hasSubList_iff full.data result.data⟩
  · intro hc
    constructor
    · unfold appendFinalResult finalResultEmitted
      rw [hb, hc]
      simp
    · unfold finalResultEmitted
      rw [hb, hc]
      rfl
  · intro hc
    constructor
    · unfold appendFinalResult finalResultEmitted
      rw [hb, hc]
      simp
    · unfold finalResultEmitted
      rw [hb, hc]
      rfl

theorem C6_final_result_dedup_witness :
    (appendFinalResult "hello world" "world" = "hello world"
      ∧ finalResultEmitted "hello world" "world" = false)
    ∧ (appendFinalResult "hello" " more" = "hello" ++ " more"
      ∧ finalResultEmitted "hello" " more" = true) :=
  ⟨(C6_final_result_dedup "hello world" "world" (by decide)).2.1 (by decide),
   (C6_final_result_dedup "hello" " more" (by decide)).1 (by decide)⟩

/-- Claim C8: after `RobinAgent.reset_session()`, the continuation token is
`None`, the tool-use log is empty, the options built for the next call
carry no resume token, and the next `investigate` starts with an empty
tool log and empty accumulated text. -/
theorem C8_reset_session :
    ∀ (a : RobinAgentSt) (sp mn : String) (mt : Nat),
      (reset_session a).session_id = none
      ∧ (reset_session a).tools_used = []
      ∧ (build_options (reset_session a) sp mn mt).resume = none
      ∧ (investigate_start (reset_session a) sp mn mt).1.tools_used = []
      ∧ (investigate_start (reset_session a) sp mn mt).2.1 = ""
      ∧ (investigate_start (reset_session a) sp mn mt).2.2.resume = none := by
  intro a sp mn mt
  exact ⟨rfl, rfl, rfl, rfl, rfl, rfl⟩

/-- Claim C9: `darkweb_search` displays at most the first 50 formatted
results; when more than 50 unique results exist the text carries an
explicit marker naming the overflow count, and otherwise no marker
appears; the reported total is always the uncapped result count. -/
theorem C9_search_display_cap :
    ∀ (results : List SearchResult),
      (displayResults results).length ≤ 50
      ∧ (formattedResults results).length = results.length
      ∧ (results.length ≤ 50 →
          searchResultText results =
            searchHeaderText results.length
              ++ String.intercalate "\n\n" (displayResults results)
              ++ searchNextStepText)
      ∧ (results.length > 50 →
          searchResultText results =
            searchHeaderText results.length
              ++ String.intercalate "\n\n" (displayResults results)
              ++ searchMoreText results.length
              ++ searchNextStepText)
      ∧ searchHeaderText results.length =
          "Found **" ++ toString results.length
            ++ "** unique results from dark web search engines.\n\n"
      ∧ searchMoreText results.length =
          "\n\n... and " ++ toString (results.length - 50) ++ " more results." := by
  intro results
  refine ⟨List.length_take_le 50 _, ?_, ?_, ?_, rfl, rfl⟩
  · simp [formattedResults, List.enum_length]
  · intro h
    unfold searchResultText
    rw [if_neg (by omega), String.append_empty]
  · intro h
    unfold searchResultText
    rw [if_pos h]

theorem C9_search_display_cap_witness :
    (searchResultText [SearchResult.mk "t" "l"] =
      searchHeaderText [SearchResult.mk "t" "l"].length
        ++ String.intercalate "\n\n" (displayResults [SearchResult.mk "t" "l"])
        ++ searchNextStepText)
    ∧ (searchResultText c9Long =
      searchHeaderText c9Long.length
        ++ String.intercalate "\n\n" (displayResults c9Long)
        ++ searchMoreText c9Long.length
        ++ searchNextStepText) :=
  ⟨(C9_search_display_cap [SearchResult.mk "t" "l"]).2.2.1 (by decide),
   (C9_search_display_cap c9Long).2.2.2.1 (by decide)⟩

set_option maxRecDepth 16384 in
/-- Claim C2 counterexample: a target list containing one valid entry and
one malformed entry (a dict without a link key) is *not* rejected with a
validation failure — `darkweb_scrape` silently drops the malformed entry
and dispatches retrieval over the valid one. -/
theorem C2_counterexample :
    darkweb_scrape [PyTarget.dict none (some "http://x.onion"), PyTarget.dict none none]
        (fun _ => none)
      ≠ scrapeNoTargetsText
    ∧ darkweb_scrape [PyTarget.dict none (some "http://x.onion"), PyTarget.dict none none]
        (fun _ => none)
      ≠ scrapeInvalidFormatText
    ∧ darkweb_scrape [PyTarget.dict none (some "http://x.onion"), PyTarget.dict none none]
        (fun _ => none)
      = scrapeResultText [⟨"Unknown", "http://x.onion"⟩] [("http://x.onion", none)] :=
  ⟨by decide, by decide, by decide⟩

/-- Claim C2 (amended): an empty target list is rejected with a descriptive
validation failure; a malformed entry (dict without a link key) is dropped
by the boundary filter, and the invalid-format validation failure is
produced only when no valid entry survives; whenever at least one valid
entry survives, retrieval is dispatched over exactly the surviving
entries.  Both validation failures are fixed messages independent of the
transport. -/
theorem C2_scrape_validation :
    ∀ (targets : List PyTarget) (fetch : String → Option String),
      (targets = [] → darkweb_scrape targets fetch = scrapeNoTargetsText)
      ∧ (targets ≠ [] → validTargets targets = [] →
          darkweb_scrape targets fetch = scrapeInvalidFormatText)
      ∧ (validTargets targets ≠ [] →
          darkweb_scrape targets fetch =
            scrapeResultText (validTargets targets)
              (scrape_multiple (validTargets targets) fetch)) := by
  intro targets fetch
  refine ⟨?_, ?_, ?_⟩
  · rintro rfl
    rfl
  · intro h1 h2
    simp only [darkweb_scrape]
    rw [if_neg h1, if_pos h2]
  · intro h
    have ht : targets ≠ [] := by
      rintro rfl
      exact h rfl
    have hm : scrape_multiple (validTargets targets) fetch ≠ [] := by
      simp [scrape_multiple, List.map_eq_nil_iff, h]
    simp only [darkweb_scrape]
    rw [if_neg ht, if_neg h, if_neg hm]

theorem C2_scrape_validation_witness :
    darkweb_scrape ([] : List PyTarget) (fun _ => none) = scrapeNoTargetsText
    ∧ darkweb_scrape [PyTarget.dict none none] (fun _ => none) = scrapeInvalidFormatText
    ∧ darkweb_scrape [PyTarget.str "u"] (fun _ => none) =
        scrapeResultText (validTargets [PyTarget.str "u"])
          (scrape_multiple (validTargets [PyTarget.str "u"]) (fun _ => none)) :=
  ⟨(C2_scrape_validation [] (fun _ => none)).1 rfl,
   (C2_scrape_validation [PyTarget.dict none none] (fun _ => none)).2.1 (by decide) rfl,
   (C2_scrape_validation [PyTarget.str "u"] (fun _ => none)).2.2 (by decide)⟩

/-- Claim C3: once `darkweb_scrape` reaches retrieval, every requested
valid link appears as a key of the result mapping (in request order, no
entry dropped by the formatting loop); content strictly longer than 50
characters is classified meaningful — included as is up to 2000
characters and truncated at 2000 with a marker beyond that — while content
of 50 characters or fewer (or absent) gets the explicit minimal-content
placeholder instead of being omitted. -/
theorem C3_scrape_formatting :
    ∀ (urls : List UrlData) (fetch : String → Option String),
      (scrape_multiple urls fetch).map Prod.fst = urls.map UrlData.link
      ∧ contentParts (scrape_multiple urls fetch) =
          urls.map (fun u => formatScrapeEntry u.link (fetch u.link))
      ∧ (∀ (url c : String), 50 < c.length → c.length ≤ 2000 →
          formatScrapeEntry url (some c) =
            "## Source: " ++ url ++ "\n\n" ++ c ++ "\n\n---")
      ∧ (∀ (url c : String), 2000 < c.length →
          formatScrapeEntry url (some c) =
            "## Source: " ++ url ++ "\n\n" ++ (c.take 2000 ++ "...") ++ "\n\n---")
      ∧ (∀ (url c : String), c.length ≤ 50 →
          formatScrapeEntry url (some c) =
            "## Source: " ++ url ++ "\n\n" ++ minimalContentText ++ "\n\n---")
      ∧ (∀ url : String, formatScrapeEntry url none =
          "## Source: " ++ url ++ "\n\n" ++ minimalContentText ++ "\n\n---") := by
  intro urls fetch
  refine ⟨?_, ?_, ?_, ?_, ?_, fun url => rfl⟩
  · simp [scrape_multiple, List.map_map, Function.comp]
  · simp [contentParts, scrape_multiple, List.map_map, Function.comp]
  · intro url c h1 h2
    simp only [formatScrapeEntry]
    rw [if_pos h1, if_neg (by omega : ¬c.length > 2000)]
  · intro url c h
    simp only [formatScrapeEntry]
    rw [if_pos (by omega : c.length > 50), if_pos h]
  · intro url c h
    simp only [formatScrapeEntry]
    rw [if_neg (by omega : ¬c.length > 50)]

theorem C3_scrape_formatting_witness :
    formatScrapeEntry "u" (some (String.mk (List.replicate 51 'a'))) =
      "## Source: " ++ "u" ++ "\n\n" ++ String.mk (List.replicate 51 'a') ++ "\n\n---"
    ∧ formatScrapeEntry "u" (some (String.mk (List.replicate 2001 'b'))) =
      "## Source: " ++ "u" ++ "\n\n"
        ++ ((String.mk (List.replicate 2001 'b')).take 2000 ++ "...") ++ "\n\n---"
    ∧ formatScrapeEntry "u" (some "short") =
      "## Source: " ++ "u" ++ "\n\n" ++ minimalContentText ++ "\n\n---" :=
  ⟨(C3_scrape_formatting [] (fun _ => none)).2.2.1 "u" _
      (by show (50 : Nat) < (List.replicate 51 'a').length; rw [List.length_replicate]; decide)
      (by show (List.replicate 51 'a').length ≤ 2000; rw [List.length_replicate]; decide),
   (C3_scrape_formatting [] (fun _ => none)).2.2.2.1 "u" _
      (by show (2000 : Nat) < (List.replicate 2001 'b').length; rw [List.length_replicate]; decide),
   (C3_scrape_formatting [] (fun _ => none)).2.2.2.2.1 "u" _ (by decide)⟩

/-- Claim C5: `delegate_analysis` rejects, before any worker runs, every
call whose agent kinds contain a name outside the fixed four-kind
registry, with a message carrying the full invalid list and the full valid
key set; an empty kind list is likewise rejected before dispatch.  The
rejection output is a constant independent of the worker runner. -/
theorem C5_delegate_invalid_kinds :
    (∀ (agent_types : List String) (content context : String)
        (runner : List String → String → String → List SubAgentResult),
      (agent_types = [] →
        delegate_analysis agent_types content context runner = noAgentsText)
      ∧ ((∃ a ∈ agent_types, a ∉ availableKeys) →
        delegate_analysis agent_types content context runner =
          invalidAgentsText (agent_types.filter (fun a => !(availableKeys.contains a)))))
    ∧ delegate_analysis ["BadAgent", "IOCExtractor"] "c" "x" (fun _ _ _ => []) =
        invalidAgentsText ["BadAgent"]
    ∧ strContainsSub (invalidAgentsText ["BadAgent"]) "BadAgent" = true
    ∧ strContainsSub (invalidAgentsText ["BadAgent"])
        "ThreatActorProfiler, IOCExtractor, MalwareAnalyst, MarketplaceInvestigator" = true := by
  refine ⟨?_, by decide, by decide, by decide⟩
  intro types content context runner
  refine ⟨?_, ?_⟩
  · rintro rfl
    rfl
  · rintro ⟨a, ha, hna⟩
    have hne : types ≠ [] := by
      rintro rfl
      simp at ha
    have hmem : a ∈ types.filter (fun a => !(availableKeys.contains a)) :=
      List.mem_filter.mpr ⟨ha, by simp [hna]⟩
    have hfil : types.filter (fun a => !(availableKeys.contains a)) ≠ [] := by
      intro h0
      rw [h0] at hmem
      exact (List.not_mem_nil a) hmem
    simp only [delegate_analysis]
    rw [if_neg hne, if_pos hfil]

theorem C5_delegate_invalid_kinds_witness :
    delegate_analysis ([] : List String) "c" "x" (fun _ _ _ => []) = noAgentsText
    ∧ delegate_analysis ["Nope"] "c" "x" (fun _ _ _ => []) =
        invalidAgentsText (["Nope"].filter (fun a => !(availableKeys.contains a))) :=
  ⟨(C5_delegate_invalid_kinds.1 [] "c" "x" (fun _ _ _ => [])).1 rfl,
   (C5_delegate_invalid_kinds.1 ["Nope"] "c" "x" (fun _ _ _ => [])).2
     ⟨"Nope", by decide, by decide⟩⟩

/-- Claim C10: a `delegate_analysis` call whose kinds are all valid and
non-empty but whose content is empty returns the descriptive
no-content-provided message and never invokes the parallel runner (the
output is a constant); the content check comes after kind validation —
with both an invalid kind and empty content, the kind rejection wins. -/
theorem C10_delegate_empty_content :
    ∀ (agent_types : List String) (context : String)
      (runner : List String → String → String → List SubAgentResult),
      agent_types ≠ [] →
      ((∀ a ∈ agent_types, a ∈ availableKeys) →
        delegate_analysis agent_types "" context runner = noContentText)
      ∧ ((∃ a ∈ agent_types, a ∉ availableKeys) →
        delegate_analysis agent_types "" context runner =
          invalidAgentsText (agent_types.filter (fun a => !(availableKeys.contains a)))) := by
  intro types context runner hne
  constructor
  · intro hall
    have hfil : types.filter (fun a => !(availableKeys.contains a)) = [] := by
      apply List.filter_eq_nil_iff.mpr
      intro a ha
      simp [hall a ha]
    simp only [delegate_analysis]
    rw [if_neg hne, if_neg (fun hcon => hcon hfil)]
    simp
  · rintro ⟨a, ha, hna⟩
    have hmem : a ∈ types.filter (fun a => !(availableKeys.contains a)) :=
      List.mem_filter.mpr ⟨ha, by simp [hna]⟩
    have hfil : types.filter (fun a => !(availableKeys.contains a)) ≠ [] := by
      intro h0
      rw [h0] at hmem
      exact (List.not_mem_nil a) hmem
    simp only [delegate_analysis]
    rw [if_neg hne, if_pos hfil]

theorem C10_delegate_empty_content_witness :
    delegate_analysis ["IOCExtractor"] "" "ctx" (fun _ _ _ => []) = noContentText
    ∧ delegate_analysis ["Nah", "IOCExtractor"] "" "ctx" (fun _ _ _ => []) =
        invalidAgentsText
          (["Nah", "IOCExtractor"].filter (fun a => !(availableKeys.contains a))) :=
  ⟨(C10_delegate_empty_content ["IOCExtractor"] "ctx" (fun _ _ _ => []) (by decide)).1
      (by decide),
   (C10_delegate_empty_content ["Nah", "IOCExtractor"] "ctx" (fun _ _ _ => []) (by decide)).2
      ⟨"Nah", by decide, by decide⟩⟩

/-- Claim C4: a search call's deduplicated result sequence contains no two
entries with the same normalized link, is an in-order subsequence of the
roster-order concatenation of the raw per-source results (first-seen order,
deterministic in the fixed roster order), covers every raw link, and on
three sources yielding links {A,B}, {B,C}, {D} produces exactly
[A,B,C,D]. -/
theorem C4_search_dedup :
    (∀ (sources : List (List SearchResult)),
      ((get_search_results sources).map SearchResult.link).Nodup
      ∧ List.Sublist (get_search_results sources) sources.flatten
      ∧ ∀ r ∈ sources.flatten, ∃ q ∈ get_search_results sources, q.link = r.link)
    ∧ get_search_results c4Sources = [c4A, c4B, c4C, c4D] := by
  refine ⟨?_, by decide⟩
  intro sources
  refine ⟨dedupByLink_nodup _ _, dedupByLink_sublist _ _, ?_⟩
  intro r hr
  exact dedupByLink_covers _ [] r hr (List.not_mem_nil _)

theorem C4_search_dedup_witness :
    ∃ q ∈ get_search_results c4Sources, q.link = c4B2.link :=
  (C4_search_dedup.1 c4Sources).2.2 c4B2 (by decide)

/-- Claim C1: tool lifecycle correlation in `AgentService` — when a
tool-use signal arrives while a previous tool is still open, a `ToolEnd`
for the previous tool (duration = now minus its recorded start time, hence
nonnegative under monotone clock readings) is emitted before the
`ToolStart` of the new tool; a completion signal closes any still-open
tool before the `Complete` event; and for three tool-use signals followed
by one completion, exactly 3 `ToolStart` and 3 `ToolEnd` events are
emitted, each `ToolEnd` referencing the id of the immediately preceding
`ToolStart`. -/
theorem C1_tool_lifecycle :
    (∀ (s : AgentServiceSt) (name : String) (input : ToolInput) (now : Nat) (tid : Nat),
      s.current_tool_id = some tid → s.tool_start_time ≤ now →
      (on_tool_use s name input now).events =
        s.events
          ++ [SSEEvent.toolEnd tid (lastToolName s.tools_used)
                ((now : Int) - (s.tool_start_time : Int))]
          ++ [SSEEvent.toolStart s.next_id name input.raw]
          ++ (if name = DELEGATE_TOOL then input.agent_types.map SSEEvent.subagentStart
              else [])
        ∧ 0 ≤ (now : Int) - (s.tool_start_time : Int))
    ∧ (∀ (s : AgentServiceSt) (r : String) (sid : Option String) (now : Nat) (tid : Nat),
      s.current_tool_id = some tid →
      (on_complete s r sid now).events =
        s.events
          ++ [SSEEvent.toolEnd tid (lastToolName s.tools_used)
                ((now : Int) - (s.tool_start_time : Int))]
          ++ [SSEEvent.complete r sid])
    ∧ (runSignals AgentServiceSt.init c1Signals).events =
        [SSEEvent.toolStart 0 "mcp__robin__darkweb_search" "q1",
         SSEEvent.toolEnd 0 "mcp__robin__darkweb_search" 2,
         SSEEvent.toolStart 1 "mcp__robin__darkweb_scrape" "q2",
         SSEEvent.toolEnd 1 "mcp__robin__darkweb_scrape" 4,
         SSEEvent.toolStart 2 "mcp__robin__save_report" "q3",
         SSEEvent.toolEnd 2 "mcp__robin__save_report" 3,
         SSEEvent.complete "done" none]
    ∧ (runSignals AgentServiceSt.init c1Signals).events.countP isToolStart = 3
    ∧ (runSignals AgentServiceSt.init c1Signals).events.countP isToolEnd = 3 := by
  refine ⟨?_, ?_, by decide, by decide, by decide⟩
  · intro s name input now tid h hle
    constructor
    · simp only [on_tool_use, h]
    · omega
  · intro s r sid now tid h
    simp only [on_complete, h]

theorem C1_tool_lifecycle_witness :
    (0 ≤ (5 : Int) - (svc1.tool_start_time : Int))
    ∧ (on_complete svc1 "done" none 6).events =
        svc1.events
          ++ [SSEEvent.toolEnd 0 (lastToolName svc1.tools_used)
                ((6 : Nat) - (svc1.tool_start_time : Int))]
          ++ [SSEEvent.complete "done" none] :=
  ⟨(C1_tool_lifecycle.1 svc1 "mcp__robin__darkweb_scrape" ⟨"j", []⟩ 5 0 rfl (by decide)).2,
   C1_tool_lifecycle.2.1 svc1 "done" none 6 0 rfl⟩

/-- Claim C7: on an uncaught failure while driving an investigation,
`AgentService.investigate` emits exactly one `Error` event carrying the
failure message and the generic code INVESTIGATION_ERROR, emits no
further event for the session afterwards (the error is the last event),
and does not retry — the failure is re-raised to the caller. -/
theorem C7_error_event :
    ∀ (s : AgentServiceSt) (stream : List Signal) (m : String),
      s.events.countP isErrorEvent = 0 →
      (investigate s stream (some m)).1.events =
          (runSignals s stream).events ++ [SSEEvent.error ⟨m, "INVESTIGATION_ERROR"⟩]
      ∧ (investigate s stream (some m)).1.events.countP isErrorEvent = 1
      ∧ (investigate s stream (some m)).1.events.getLast? =
          some (SSEEvent.error ⟨m, "INVESTIGATION_ERROR"⟩)
      ∧ (investigate s stream (some m)).2 = Except.error m := by
  intro s stream m h0
  refine ⟨rfl, ?_, ?_, rfl⟩
  · show ((runSignals s stream).events
        ++ [SSEEvent.error ⟨m, "INVESTIGATION_ERROR"⟩]).countP isErrorEvent = 1
    rw [List.countP_append, runSignals_countP_error, h0]
    rfl
  · show ((runSignals s stream).events
        ++ [SSEEvent.error ⟨m, "INVESTIGATION_ERROR"⟩]).getLast? =
      some (SSEEvent.error ⟨m, "INVESTIGATION_ERROR"⟩)
    exact List.getLast?_concat _

theorem C7_error_event_witness :
    (investigate AgentServiceSt.init [Signal.textSig "hi"] (some "boom")).1.events =
        (runSignals AgentServiceSt.init [Signal.textSig "hi"]).events
          ++ [SSEEvent.error ⟨"boom", "INVESTIGATION_ERROR"⟩]
    ∧ (investigate AgentServiceSt.init [Signal.textSig "hi"]
        (some "boom")).1.events.countP isErrorEvent = 1
    ∧ (investigate AgentServiceSt.init [Signal.textSig "hi"]
        (some "boom")).1.events.getLast? =
        some (SSEEvent.error ⟨"boom", "INVESTIGATION_ERROR"⟩)
    ∧ (investigate AgentServiceSt.init [Signal.textSig "hi"] (some "boom")).2 =
        Except.error "boom" :=
  C7_error_event AgentServiceSt.init [Signal.textSig "hi"] "boom" rfl

end Robin
